import Mathlib

/- Verification of the GST style-encoder modules (src/modules.py):
   ReferenceEncoder, STL, MultiHeadAttention and GST.
   Python integers are modelled as ℤ (floor division is Int.fdiv),
   tensor dimension sizes as ℕ, tensor values as ℝ. -/

set_option maxRecDepth 4000

/-- Configuration object consumed by the modules (hparams fields used
in src/modules.py). -/
structure HParams where
  ref_enc_filters : List ℕ
  n_mel_channels : ℕ
  ref_enc_gru_size : ℕ
  token_num : ℕ
  token_embedding_size : ℕ
  num_heads : ℕ

/-- ReferenceEncoder.calculate_channels (src/modules.py lines 62-65):
for each of the n_convs iterations, L := (L - kernel_size + 2 * pad) // stride + 1
(Python floor division on ints is Int.fdiv). -/
def calculate_channels (L kernel_size stride pad : ℤ) : ℕ → ℤ
  | 0 => L
  | n + 1 => calculate_channels ((L - kernel_size + 2 * pad).fdiv stride + 1) kernel_size stride pad n

/-- Constructed state of ReferenceEncoder (src/modules.py lines 15-39):
the (in_channels, out_channels) pair of each Conv2d, the num_features of
each BatchNorm2d, the GRU input_size and hidden_size, and the remembered
n_mel_channels and ref_enc_gru_size. -/
structure ReferenceEncoder where
  convs : List (ℕ × ℕ)
  bns : List ℕ
  gru_input_size : ℤ
  n_mel_channels : ℕ
  ref_enc_gru_size : ℕ

/-- ReferenceEncoder.__init__ (src/modules.py lines 15-39):
filters = [1] + ref_enc_filters; conv i maps filters[i] to filters[i+1];
bn i has ref_enc_filters[i] features;
out_channels = calculate_channels(n_mel_channels, 3, 2, 1, K) with
K = len(ref_enc_filters); the GRU input_size is ref_enc_filters[-1] * out_channels.
(Python raises IndexError on an empty filter list; getLastD 0 is a total
stand-in, and every claim is evaluated on nonempty filter lists.) -/
def ReferenceEncoder.init (hp : HParams) : ReferenceEncoder :=
  { convs := (1 :: hp.ref_enc_filters).zip hp.ref_enc_filters
    bns := hp.ref_enc_filters
    gru_input_size :=
      (hp.ref_enc_filters.getLastD 0 : ℤ) *
        calculate_channels (hp.n_mel_channels : ℤ) 3 2 1 hp.ref_enc_filters.length
    n_mel_channels := hp.n_mel_channels
    ref_enc_gru_size := hp.ref_enc_gru_size }

/- Shape-level semantics.  A tensor shape is its list of dimension sizes.
Each operation below is the shape behaviour of the corresponding torch
primitive used by src/modules.py; an operation that torch rejects at run
time yields none. -/

/-- Chunk sizes produced by torch.split(x, split, dim) on a dimension of
size total: full chunks of size split, then one smaller remainder chunk
when split does not divide total. -/
def torchSplitSizes (split total : ℕ) : List ℕ :=
  List.replicate (total / split) split ++ if total % split = 0 then [] else [total % split]

/-- torch.stack requires all stacked tensors to have the same shape; for
chunks split along one dimension this means all chunk sizes are equal. -/
def stackable (l : List ℕ) : Prop := ∀ x ∈ l, x = l.headD 0

instance (l : List ℕ) : Decidable (stackable l) := List.decidableBAll _ l

/-- Output spatial size of a kernel-3, stride-2, padding-1 Conv2d:
(L + 2*1 - 3) / 2 + 1 (valid when 1 ≤ L, checked by the caller). -/
def conv2dOutDim (L : ℕ) : ℕ := (L + 2 * 1 - 3) / 2 + 1

/-- Shape of the conv/bn/relu loop of ReferenceEncoder.forward (lines 43-46):
each stage is Conv2d (checking its in_channels and that the padded input
covers the kernel) followed by BatchNorm2d (checking num_features) and ReLU. -/
def convBnStackShape : List ((ℕ × ℕ) × ℕ) → List ℕ → Option (List ℕ)
  | [], s => some s
  | ((cin, cout), feat) :: rest, [n, c, h, w] =>
      if c = cin ∧ 1 ≤ h ∧ 1 ≤ w ∧ feat = cout then
        convBnStackShape rest [n, cout, conv2dOutDim h, conv2dOutDim w]
      else none
  | _ :: _, _ => none

/-- Shape behaviour of ReferenceEncoder.forward (src/modules.py lines 41-60):
view(N, 1, -1, n_mel_channels) (torch.view infers -1 only when the element
count is divisible), the conv/bn/relu loop, transpose(1,2), view(N, T, -1),
then the GRU (torch checks the flattened feature width against the
input_size fixed at construction, and needs at least one timestep) whose
final hidden state [1, N, hidden] is squeezed to [N, hidden].
When input_lengths is supplied, line 53 evaluates 2 ** len(self), and
nn.Module defines no __len__, so the call raises TypeError: none. -/
def ReferenceEncoder.forwardShape (m : ReferenceEncoder) (ishape : List ℕ)
    (input_lengths : Option (List ℤ)) : Option (List ℕ) :=
  match ishape with
  | [n, t, c] =>
      if 0 < n * m.n_mel_channels ∧ n * m.n_mel_channels ∣ n * t * c then
        match convBnStackShape (m.convs.zip m.bns)
            [n, 1, n * t * c / (n * m.n_mel_channels), m.n_mel_channels] with
        | some [n2, c2, h2, w2] =>
            match input_lengths with
            | some _ => none
            | none =>
                if (c2 * w2 : ℤ) = m.gru_input_size ∧ 1 ≤ h2 then
                  some [n2, m.ref_enc_gru_size]
                else none
        | _ => none
      else none
  | _ => none

/-- Shape behaviour of MultiHeadAttention.forward (src/modules.py lines
108-126): the three Linear layers check the trailing dimension of their
inputs; torch.split along the num_units dimension uses
split_size = num_units // num_heads (torch.split rejects split size 0),
torch.stack requires equal chunks, and the final cat/squeeze(0) rebuilds
the feature axis from the stacked chunks. -/
def MultiHeadAttention.forwardShape (query_dim key_dim num_units num_heads : ℕ)
    (qshape kshape : List ℕ) : Option (List ℕ) :=
  match qshape, kshape with
  | [n, tq, qd], [n2, _tk, kd] =>
      if qd = query_dim ∧ kd = key_dim ∧ n2 = n ∧ 1 ≤ num_units / num_heads ∧
          stackable (torchSplitSizes (num_units / num_heads) num_units) then
        some [n, tq,
          (torchSplitSizes (num_units / num_heads) num_units).length *
            (torchSplitSizes (num_units / num_heads) num_units).headD 0]
      else none
  | _, _ => none

/-- Shape behaviour of STL.forward (src/modules.py lines 82-88): the input
[N, d] is unsqueezed to a length-1 query [N, 1, d]; the tanh-transformed
token bank is expanded to keys [N, token_num, token_embedding_size // num_heads];
the attention output is returned as is.  The attention was constructed
(lines 71-78) with query_dim = ref_enc_gru_size,
key_dim = token_embedding_size // num_heads, num_units = token_embedding_size. -/
def STL.forwardShape (hp : HParams) (ishape : List ℕ) : Option (List ℕ) :=
  match ishape with
  | [n, d] =>
      MultiHeadAttention.forwardShape hp.ref_enc_gru_size
        (hp.token_embedding_size / hp.num_heads)
        hp.token_embedding_size hp.num_heads
        [n, 1, d] [n, hp.token_num, hp.token_embedding_size / hp.num_heads]
  | _ => none

/-- Shape behaviour of GST.forward (src/modules.py lines 134-137):
ReferenceEncoder then STL. -/
def GST.forwardShape (hp : HParams) (ishape : List ℕ)
    (input_lengths : Option (List ℤ)) : Option (List ℕ) :=
  match (ReferenceEncoder.init hp).forwardShape ishape input_lengths with
  | some es => STL.forwardShape hp es
  | none => none

/-- The scenario configuration of the spec: ref_enc_filters=[32,32,64,64,128,128],
n_mel_channels=80, ref_enc_gru_size=128, token_num=10, token_embedding_size=256,
num_heads=8. -/
def scenarioHP : HParams :=
  { ref_enc_filters := [32, 32, 64, 64, 128, 128]
    n_mel_channels := 80
    ref_enc_gru_size := 128
    token_num := 10
    token_embedding_size := 256
    num_heads := 8 }

/-- The configuration-error scenario of the spec: token_embedding_size=250,
num_heads=8 (250 is not divisible by 8). -/
def badHP : HParams :=
  { ref_enc_filters := [32, 32, 64, 64, 128, 128]
    n_mel_channels := 80
    ref_enc_gru_size := 128
    token_num := 10
    token_embedding_size := 250
    num_heads := 8 }

/- Value-level semantics over ℝ.  A batched 3-d tensor [N, T, D] is a
function ι → ℕ → ℕ → ℝ where ι is the batch index type (ℕ or Fin N);
entries outside the dimension bounds are irrelevant, and every reduction
ranges over the explicit dimension argument. -/

noncomputable section RealSemantics

/-- nn.Linear with bias=False along the trailing dimension:
output o = sum over i < in_features of input i * weight[o][i]. -/
def linearNoBias {ι : Type*} (W : ℕ → ℕ → ℝ) (inDim : ℕ)
    (x : ι → ℕ → ℕ → ℝ) : ι → ℕ → ℕ → ℝ :=
  fun n t o => ∑ i ∈ Finset.range inDim, x n t i * W o i

/-- torch.split along the trailing dimension into contiguous chunks of
size s followed by torch.stack on a new leading head axis: head h,
offset j reads feature h * s + j. -/
def splitStack {ι : Type*} (s : ℕ) (x : ι → ℕ → ℕ → ℝ) : ℕ → ι → ℕ → ℕ → ℝ :=
  fun h n t j => x n t (h * s + j)

/-- Learned state of MultiHeadAttention (src/modules.py lines 98-106):
num_units, num_heads, key_dim, and the three bias-free projection layers
(query_dim is W_query.in_features). -/
structure MultiHeadAttention where
  num_units : ℕ
  num_heads : ℕ
  key_dim : ℕ
  query_dim : ℕ
  W_query : ℕ → ℕ → ℝ
  W_key : ℕ → ℕ → ℝ
  W_value : ℕ → ℕ → ℝ

/-- MultiHeadAttention.__init__ (src/modules.py lines 98-106): stores the
sizes and the three projections; it performs no validation (in particular
no divisibility check of num_units by num_heads). -/
def MultiHeadAttention.init (query_dim key_dim num_units num_heads : ℕ)
    (Wq Wk Wv : ℕ → ℕ → ℝ) : MultiHeadAttention :=
  { num_units := num_units
    num_heads := num_heads
    key_dim := key_dim
    query_dim := query_dim
    W_query := Wq
    W_key := Wk
    W_value := Wv }

/-- split_size = self.num_units // self.num_heads (line 113). -/
def MultiHeadAttention.split_size (m : MultiHeadAttention) : ℕ :=
  m.num_units / m.num_heads

/-- querys = self.W_query(query) (line 109). -/
def MultiHeadAttention.querys {ι : Type*} (m : MultiHeadAttention)
    (query : ι → ℕ → ℕ → ℝ) : ι → ℕ → ℕ → ℝ :=
  linearNoBias m.W_query m.query_dim query

/-- keys = self.W_key(key) (line 110). -/
def MultiHeadAttention.keys {ι : Type*} (m : MultiHeadAttention)
    (key : ι → ℕ → ℕ → ℝ) : ι → ℕ → ℕ → ℝ :=
  linearNoBias m.W_key m.key_dim key

/-- values = self.W_value(key) (line 111). -/
def MultiHeadAttention.values {ι : Type*} (m : MultiHeadAttention)
    (key : ι → ℕ → ℕ → ℝ) : ι → ℕ → ℕ → ℝ :=
  linearNoBias m.W_value m.key_dim key

/-- scores = torch.matmul(querys, keys.transpose(2,3)) (line 118): for each
head and batch element, the [T_q, split_size] x [split_size, T_k] product. -/
def MultiHeadAttention.rawScores {ι : Type*} (m : MultiHeadAttention)
    (query key : ι → ℕ → ℕ → ℝ) : ℕ → ι → ℕ → ℕ → ℝ :=
  fun h n i j => ∑ d ∈ Finset.range m.split_size,
    splitStack m.split_size (m.querys query) h n i d *
      splitStack m.split_size (m.keys key) h n j d

/-- scores = scores / (self.key_dim ** 0.5) (line 119). -/
def MultiHeadAttention.scaledScores {ι : Type*} (m : MultiHeadAttention)
    (query key : ι → ℕ → ℕ → ℝ) : ℕ → ι → ℕ → ℕ → ℝ :=
  fun h n i j => m.rawScores query key h n i j / Real.sqrt (m.key_dim : ℝ)

/-- scores = F.softmax(scores, dim=3) (line 120), over the T_k key positions. -/
def MultiHeadAttention.softScores {ι : Type*} (m : MultiHeadAttention) (Tk : ℕ)
    (query key : ι → ℕ → ℕ → ℝ) : ℕ → ι → ℕ → ℕ → ℝ :=
  fun h n i j => Real.exp (m.scaledScores query key h n i j) /
    ∑ j2 ∈ Finset.range Tk, Real.exp (m.scaledScores query key h n i j2)

/-- out = torch.matmul(scores, values) (line 123): per head, the
softmax-weighted sum of the per-head values over the T_k key positions. -/
def MultiHeadAttention.headOut {ι : Type*} (m : MultiHeadAttention) (Tk : ℕ)
    (query key : ι → ℕ → ℕ → ℝ) : ℕ → ι → ℕ → ℕ → ℝ :=
  fun h n i c => ∑ j ∈ Finset.range Tk,
    m.softScores Tk query key h n i j *
      splitStack m.split_size (m.values key) h n j c

/-- out = torch.cat(torch.split(out, 1, dim=0), dim=3).squeeze(0) (line 124):
feature c of the concatenation reads head c / split_size at offset
c % split_size.  This is MultiHeadAttention.forward as a value map. -/
def MultiHeadAttention.forwardVal {ι : Type*} (m : MultiHeadAttention) (Tk : ℕ)
    (query key : ι → ℕ → ℕ → ℝ) : ι → ℕ → ℕ → ℝ :=
  fun n i c => m.headOut Tk query key (c / m.split_size) n i (c % m.split_size)

/-- Learned state of STL (src/modules.py lines 71-80): the token bank and
the attention block. -/
structure STL where
  embed : ℕ → ℕ → ℝ
  attention : MultiHeadAttention

/-- STL.__init__ (src/modules.py lines 71-80): the token bank is a
[token_num, token_embedding_size // num_heads] parameter (its Gaussian
initialisation is external randomness, passed in as embed0, as are the
Linear weights); the attention is built with d_q = ref_enc_gru_size,
d_k = token_embedding_size // num_heads, num_units = token_embedding_size.
No validation is performed. -/
def STL.init (hp : HParams) (embed0 Wq Wk Wv : ℕ → ℕ → ℝ) : STL :=
  { embed := embed0
    attention := MultiHeadAttention.init hp.ref_enc_gru_size
      (hp.token_embedding_size / hp.num_heads)
      hp.token_embedding_size hp.num_heads Wq Wk Wv }

/-- STL.forward (src/modules.py lines 82-88): query = inputs.unsqueeze(1)
(a length-1 query sequence), keys = tanh(embed) broadcast to every batch
element (tokenNum is the token-bank row count), output returned as is. -/
def STL.forwardVal {ι : Type*} (stl : STL) (tokenNum : ℕ)
    (inputs : ι → ℕ → ℝ) : ι → ℕ → ℕ → ℝ :=
  stl.attention.forwardVal tokenNum
    (fun n _t d => inputs n d)
    (fun _n j d => Real.tanh (stl.embed j d))

/- Value-level ReferenceEncoder pipeline for the batch-permutation claim.
Modelled from the spec: Conv2d and the GRU are numeric-library primitives
the spec treats as trusted building blocks; each operates independently on
every batch example, so they enter the model as per-example functions.
BatchNorm2d (training mode) is the one cross-example operation and is
modelled explicitly with its batch statistics. -/

/-- One conv/bn/relu stage: the Conv2d value map on a single example
(channel, height, width indexed), the BatchNorm2d affine parameters and
eps, and the spatial extent (height, width) of the stage output over which
batch statistics are taken. -/
structure ConvStage where
  conv : (ℕ → ℕ → ℕ → ℝ) → ℕ → ℕ → ℕ → ℝ
  gamma : ℕ → ℝ
  beta : ℕ → ℝ
  eps : ℝ
  height : ℕ
  width : ℕ

/-- Per-channel batch mean of BatchNorm2d in training mode: averaged over
the batch and both spatial axes. -/
def bnMean {N : ℕ} (H W : ℕ) (x : Fin N → ℕ → ℕ → ℕ → ℝ) (c : ℕ) : ℝ :=
  (∑ n : Fin N, ∑ h ∈ Finset.range H, ∑ w ∈ Finset.range W, x n c h w) /
    ((N : ℝ) * H * W)

/-- Per-channel (biased) batch variance of BatchNorm2d in training mode. -/
def bnVar {N : ℕ} (H W : ℕ) (x : Fin N → ℕ → ℕ → ℕ → ℝ) (c : ℕ) : ℝ :=
  (∑ n : Fin N, ∑ h ∈ Finset.range H, ∑ w ∈ Finset.range W,
      (x n c h w - bnMean H W x c) ^ 2) / ((N : ℝ) * H * W)

/-- BatchNorm2d in training mode: normalise with the per-channel batch
statistics, then apply the learned affine map. -/
def batchNorm2d {N : ℕ} (gamma beta : ℕ → ℝ) (eps : ℝ) (H W : ℕ)
    (x : Fin N → ℕ → ℕ → ℕ → ℝ) : Fin N → ℕ → ℕ → ℕ → ℝ :=
  fun n c h w =>
    gamma c * ((x n c h w - bnMean H W x c) / Real.sqrt (bnVar H W x c + eps)) +
      beta c

/-- F.relu applied elementwise to one example. -/
def reluVal (x : ℕ → ℕ → ℕ → ℝ) : ℕ → ℕ → ℕ → ℝ :=
  fun c h w => max (x c h w) 0

/-- One iteration of the conv/bn/relu loop of ReferenceEncoder.forward
(lines 44-46) on a batch: out = F.relu(bn(conv(out))). -/
def convBnStep {N : ℕ} (st : ConvStage)
    (x : Fin N → ℕ → ℕ → ℕ → ℝ) : Fin N → ℕ → ℕ → ℕ → ℝ :=
  fun n =>
    reluVal (batchNorm2d st.gamma st.beta st.eps st.height st.width
      (fun n2 => st.conv (x n2)) n)

/-- The conv/bn/relu loop of ReferenceEncoder.forward (lines 43-46) on a
batch: one convBnStep per configured stage, in order. -/
def convBnStackVal {N : ℕ} (stages : List ConvStage)
    (x : Fin N → ℕ → ℕ → ℕ → ℝ) : Fin N → ℕ → ℕ → ℕ → ℝ :=
  List.foldl (fun acc st => convBnStep st acc) x stages

/-- inputs.view(inputs.size(0), 1, -1, n_mel_channels) (line 42) on one
example: reinterpret the row-major [T, C] data as a single-channel
[T * C / mel, mel] image. -/
def viewAsImage (C mel : ℕ) (x : ℕ → ℕ → ℝ) : ℕ → ℕ → ℕ → ℝ :=
  fun _c h w => x ((h * mel + w) / C) ((h * mel + w) % C)

/-- out.transpose(1,2) followed by out.contiguous().view(N, T, -1)
(lines 48-50) on one example: time t is the former height axis, and the
feature axis flattens (channel, width) with the given final width. -/
def flattenTimeMajor (Wdim : ℕ) (x : ℕ → ℕ → ℕ → ℝ) : ℕ → ℕ → ℝ :=
  fun t f => x (f / Wdim) t (f % Wdim)

/-- ReferenceEncoder.forward without lengths (lines 41-60) as a value map:
view as image, conv/bn/relu stack, time-major flatten, then the per-example
recurrent summarizer gruFn returning the final hidden state (the GRU output
[1, N, hidden] squeezed to [N, hidden]). -/
def ReferenceEncoder.forwardVal {N : ℕ} (stages : List ConvStage)
    (gruFn : (ℕ → ℕ → ℝ) → ℕ → ℝ) (melC origC Wfinal : ℕ)
    (inputs : Fin N → ℕ → ℕ → ℝ) : Fin N → ℕ → ℝ :=
  fun n => gruFn (flattenTimeMajor Wfinal
    (convBnStackVal stages (fun n2 => viewAsImage origC melC (inputs n2)) n))

/-- GST.forward (lines 134-137) as a value map: encoder then STL.  When
input_lengths is supplied, ReferenceEncoder.forward line 53 evaluates
2 ** len(self) and nn.Module defines no __len__, so the call raises
TypeError: none. -/
def GST.forwardVal {N : ℕ} (stages : List ConvStage)
    (gruFn : (ℕ → ℕ → ℝ) → ℕ → ℝ) (melC origC Wfinal tokenNum : ℕ)
    (stl : STL) (inputs : Fin N → ℕ → ℕ → ℝ)
    (input_lengths : Option (Fin N → ℤ)) : Option (Fin N → ℕ → ℕ → ℝ) :=
  match input_lengths with
  | some _ => none
  | none => some (stl.forwardVal tokenNum
      (ReferenceEncoder.forwardVal stages gruFn melC origC Wfinal inputs))

/-- The full learned state read by a GST forward pass: the conv stages
(convolution kernels and batch-norm parameters), the recurrent summarizer,
the derived sizes, and the STL (token bank plus projection weights). -/
structure GSTModel where
  stages : List ConvStage
  gruFn : (ℕ → ℕ → ℝ) → ℕ → ℝ
  melC : ℕ
  origC : ℕ
  Wfinal : ℕ
  tokenNum : ℕ
  stl : STL

/-- GST.forward as a state transformer: the pass reads the parameters and
returns them with the output.  The only parameter-touching call in
src/modules.py lines 41-137 is gru.flatten_parameters() (line 58), which
reorganises parameter storage without changing any value; no statement
assigns to the token bank or to any projection or conv/bn/gru weight. -/
def GST.forwardStateful {N : ℕ} (g : GSTModel) (inputs : Fin N → ℕ → ℕ → ℝ)
    (input_lengths : Option (Fin N → ℤ)) :
    GSTModel × Option (Fin N → ℕ → ℕ → ℝ) :=
  (g, GST.forwardVal g.stages g.gruFn g.melC g.origC g.Wfinal g.tokenNum
    g.stl inputs input_lengths)

end RealSemantics

/- Lemmas and claim theorems. -/

/-- The loop of calculate_channels is the n-fold iterate of the one-step update. -/
lemma calculate_channels_eq_iterate (k s p : ℤ) :
    ∀ (n : ℕ) (L : ℤ),
      calculate_channels L k s p n = (fun L : ℤ => (L - k + 2 * p).fdiv s + 1)^[n] L := by
  intro n
  induction n with
  | zero => intro L; rfl
  | succ m ih =>
      intro L
      rw [calculate_channels, ih, Function.iterate_succ_apply]

/-- Floor division of natural-number casts agrees with ℕ division. -/
lemma fdiv_natCast (a b : ℕ) : (a : ℤ).fdiv (b : ℤ) = ((a / b : ℕ) : ℤ) := by
  cases a with
  | zero => simp [Int.fdiv]
  | succ m => rfl

/-- One ceiling-halving followed by a ceiling-division by p equals a single
ceiling-division by 2 * p, in the (a + b - 1) / b formulation. -/
lemma ceil_halving_step (p a : ℕ) (hp : 1 ≤ p) (ha : 1 ≤ a) :
    ((a - 1) / 2 + 1 + p - 1) / p = (a + 2 * p - 1) / (2 * p) := by
  have h1 : (a - 1) / 2 + 1 + p - 1 = (a - 1) / 2 + p := by omega
  have h2 : (a - 1 + 2 * p) / 2 = (a - 1) / 2 + p :=
    Nat.add_mul_div_left _ _ (by norm_num)
  calc ((a - 1) / 2 + 1 + p - 1) / p = ((a - 1) / 2 + p) / p := by rw [h1]
    _ = ((a - 1 + 2 * p) / 2) / p := by rw [h2]
    _ = (a - 1 + 2 * p) / (2 * p) := Nat.div_div_eq_div_mul _ _ _
    _ = (a + 2 * p - 1) / (2 * p) := by congr 1; omega

/-- With kernel 3, stride 2, pad 1, each step sends a positive length L
to (L + 1) / 2, and n steps send L to (L + 2 ^ n - 1) / 2 ^ n. -/
lemma calculate_channels_nat :
    ∀ (n : ℕ) (a : ℕ), 1 ≤ a →
      calculate_channels (a : ℤ) 3 2 1 n = (((a + 2 ^ n - 1) / 2 ^ n : ℕ) : ℤ) := by
  intro n
  induction n with
  | zero =>
      intro a _
      simp [calculate_channels]
  | succ m ih =>
      intro a ha
      have hstep : ((a : ℤ) - 3 + 2 * 1).fdiv 2 + 1 = (((a - 1) / 2 + 1 : ℕ) : ℤ) := by
        have h1 : (a : ℤ) - 3 + 2 * 1 = ((a - 1 : ℕ) : ℤ) := by
          push_cast [Nat.cast_sub ha]
          ring
        have h2 : ((a - 1 : ℕ) : ℤ).fdiv ((2 : ℕ) : ℤ) = (((a - 1) / 2 : ℕ) : ℤ) :=
          fdiv_natCast (a - 1) 2
        rw [h1]
        rw [show ((2 : ℕ) : ℤ) = (2 : ℤ) from rfl] at h2
        rw [h2]
        push_cast
        ring
      rw [calculate_channels, hstep, ih ((a - 1) / 2 + 1) (Nat.le_add_left 1 _)]
      congr 1
      have hkey := ceil_halving_step (2 ^ m) a Nat.one_le_two_pow ha
      rw [hkey]
      have h3 : 2 * 2 ^ m = 2 ^ (m + 1) := (pow_succ' 2 m).symm
      rw [h3]

/-- The natural-number formula (a + b - 1) / b is the ceiling of a / b. -/
lemma ceil_div_eq_nat_formula (a b : ℕ) (hb : 0 < b) :
    ⌈(a : ℚ) / (b : ℚ)⌉ = (((a + b - 1) / b : ℕ) : ℤ) := by
  have hb' : (0 : ℚ) < (b : ℚ) := by exact_mod_cast hb
  have hq : (a + b - 1) % b < b := Nat.mod_lt _ hb
  have hdm : b * ((a + b - 1) / b) + (a + b - 1) % b = a + b - 1 := Nat.div_add_mod _ _
  have hnat1 : a ≤ b * ((a + b - 1) / b) := by omega
  have hnat2 : b * ((a + b - 1) / b) < a + b := by omega
  have hc1 : (a : ℚ) ≤ (b : ℚ) * (((a + b - 1) / b : ℕ) : ℚ) := by exact_mod_cast hnat1
  have hc2 : (b : ℚ) * (((a + b - 1) / b : ℕ) : ℚ) < (a : ℚ) + (b : ℚ) := by
    calc (b : ℚ) * (((a + b - 1) / b : ℕ) : ℚ)
        = (((b * ((a + b - 1) / b) : ℕ) : ℚ)) := by push_cast; ring
      _ < (((a + b : ℕ) : ℚ)) := by exact_mod_cast hnat2
      _ = (a : ℚ) + (b : ℚ) := by push_cast; ring
  have h1 : ((((a + b - 1) / b : ℕ) : ℤ) : ℚ) = (((a + b - 1) / b : ℕ) : ℚ) := by
    norm_cast
  rw [Int.ceil_eq_iff]
  constructor
  · rw [h1, lt_div_iff₀ hb']
    linarith [hc2]
  · rw [h1, div_le_iff₀ hb']
    linarith [hc1]

/-- C10: for every integer L ≥ 1 and every n ≥ 0,
calculate_channels(L, kernel_size=3, stride=2, pad=1, n_convs=n) terminates
(it is a total function) and returns exactly ceil(L / 2^n): the iterated
update L := (L - 3 + 2*1) // 2 + 1 applied n times coincides with n
ceiling-halvings of L. -/
theorem calculate_channels_is_ceil_pow (L : ℤ) (n : ℕ) (hL : 1 ≤ L) :
    calculate_channels L 3 2 1 n = ⌈(L : ℚ) / (2 : ℚ) ^ n⌉ := by
  obtain ⟨a, rfl⟩ : ∃ a : ℕ, L = (a : ℤ) :=
    ⟨L.toNat, (Int.toNat_of_nonneg (by linarith)).symm⟩
  have ha : 1 ≤ a := by exact_mod_cast hL
  have hb : 0 < 2 ^ n := Nat.pos_pow_of_pos n (by norm_num)
  have hcast : ((2 : ℚ)) ^ n = (((2 ^ n : ℕ) : ℚ)) := by push_cast; ring
  have hcast2 : (((a : ℤ)) : ℚ) = ((a : ℕ) : ℚ) := by push_cast; ring
  rw [calculate_channels_nat n a ha, hcast2, hcast, ceil_div_eq_nat_formula a (2 ^ n) hb]

/-- Witness for C10 at L = 80, n = 6 (the scenario mel-channel count and
conv depth): calculate_channels returns ceil(80 / 64) = 2. -/
theorem calculate_channels_is_ceil_pow_witness :
    (1 : ℤ) ≤ 80 ∧ calculate_channels 80 3 2 1 6 = ⌈(80 : ℚ) / (2 : ℚ) ^ 6⌉ :=
  ⟨by norm_num, calculate_channels_is_ceil_pow 80 6 (by norm_num)⟩


/-- torch.split with a positive split size that divides the total produces
equal chunks of the split size. -/
lemma torchSplitSizes_mul (s k : ℕ) (hs : 0 < s) :
    torchSplitSizes s (k * s) = List.replicate k s := by
  unfold torchSplitSizes
  rw [Nat.mul_div_cancel _ hs, Nat.mul_mod_left]
  simp

/-- A replicated list is stackable. -/
lemma stackable_replicate (k s : ℕ) : stackable (List.replicate k s) := by
  intro x hx
  cases k with
  | zero => simp at hx
  | succ m =>
      rw [List.eq_of_mem_replicate hx, List.replicate_succ]
      rfl

/-- Head of a nonempty replicated list. -/
lemma headD_replicate (k s : ℕ) (hk : 0 < k) :
    (List.replicate k s).headD 0 = s := by
  cases k with
  | zero => omega
  | succ m => rw [List.replicate_succ]; rfl

/-- When num_heads divides num_units (with a positive split size),
MultiHeadAttention.forward accepts matching query and key shapes and
produces shape [N, T_q, num_units]. -/
lemma mha_forwardShape_divisible (query_dim key_dim num_units num_heads : ℕ)
    (n tq tk : ℕ) (hdvd : num_heads ∣ num_units)
    (hpos : 1 ≤ num_units / num_heads) :
    MultiHeadAttention.forwardShape query_dim key_dim num_units num_heads
      [n, tq, query_dim] [n, tk, key_dim] = some [n, tq, num_units] := by
  have hH : 0 < num_heads := by
    rcases Nat.eq_zero_or_pos num_heads with h0 | h
    · rw [h0] at hpos; simp at hpos
    · exact h
  obtain ⟨k, hk⟩ := hdvd
  have hs : num_units / num_heads = k := by
    rw [hk, Nat.mul_div_cancel_left _ hH]
  have hk1 : 0 < k := by rw [hs] at hpos; omega
  have hsplit : torchSplitSizes (num_units / num_heads) num_units
      = List.replicate num_heads k := by
    rw [hs, hk]
    exact torchSplitSizes_mul k num_heads hk1
  simp only [MultiHeadAttention.forwardShape]
  rw [hsplit]
  rw [if_pos ⟨trivial, trivial, trivial, hpos, stackable_replicate _ _⟩]
  rw [List.length_replicate, headD_replicate _ _ hH]
  rw [← hk]

/-- C1 (counterexample): under the scenario configuration with input batch
[2, 50, 80], GST.forward (via STL.forward) returns shape [2, 1, 256] — the
singleton query-time dimension is retained, so the top-level output is not
[2, 256]. -/
theorem stl_output_shape_counterexample :
    GST.forwardShape scenarioHP [2, 50, 80] none = some [2, 1, 256] ∧
    some [2, 1, 256] ≠ some [2, 256] := ⟨by decide, by decide⟩

/-- C1 (amended): STL.forward returns the attention output with the
singleton query-time dimension retained: for a batch of N query vectors of
the constructed query dimension it returns shape
[N, 1, token_embedding_size], and under the scenario configuration with
N=2 the top-level GST output has shape [2, 1, 256]. -/
theorem stl_forward_output_shape (hp : HParams) (n d : ℕ)
    (hd : d = hp.ref_enc_gru_size)
    (hdvd : hp.num_heads ∣ hp.token_embedding_size)
    (hpos : 1 ≤ hp.token_embedding_size / hp.num_heads) :
    STL.forwardShape hp [n, d] = some [n, 1, hp.token_embedding_size] ∧
    GST.forwardShape scenarioHP [2, 50, 80] none = some [2, 1, 256] := by
  constructor
  · simp only [STL.forwardShape]
    rw [hd]
    exact mha_forwardShape_divisible hp.ref_enc_gru_size
      (hp.token_embedding_size / hp.num_heads) hp.token_embedding_size
      hp.num_heads n 1 hp.token_num hdvd hpos
  · decide

/-- Witness for the amended C1 at the scenario configuration, N=2, d=128. -/
theorem stl_forward_output_shape_witness :
    (128 = scenarioHP.ref_enc_gru_size ∧
      scenarioHP.num_heads ∣ scenarioHP.token_embedding_size ∧
      1 ≤ scenarioHP.token_embedding_size / scenarioHP.num_heads) ∧
    (STL.forwardShape scenarioHP [2, 128] = some [2, 1, 256] ∧
      GST.forwardShape scenarioHP [2, 50, 80] none = some [2, 1, 256]) :=
  ⟨by decide, stl_forward_output_shape scenarioHP 2 128 (by decide) (by decide) (by decide)⟩

/-- C2 (counterexample): with token_embedding_size=250 and num_heads=8
(250 not divisible by 8), constructing STL (and hence MultiHeadAttention)
succeeds and returns a fully formed model — neither constructor performs
any divisibility check, so no ConfigurationError is raised before a
forward call. -/
theorem mha_construction_succeeds_on_bad_config :
    (STL.init badHP (fun _ _ => 0) (fun _ _ => 0) (fun _ _ => 0)
        (fun _ _ => 0)).attention.num_units = 250 ∧
    (STL.init badHP (fun _ _ => 0) (fun _ _ => 0) (fun _ _ => 0)
        (fun _ _ => 0)).attention.num_heads = 8 ∧
    ¬ (250 % 8 = 0) := ⟨rfl, rfl, by decide⟩

/-- C2 (amended): construction performs no divisibility check and always
succeeds; with token_embedding_size=250, num_heads=8 the constructed
split_size is 250 // 8 = 31, and the violation surfaces only at the first
forward call, where torch.stack rejects the unequal chunks produced by
torch.split (eight chunks of 31 and one of 2), so STL.forward fails. -/
theorem mha_divisibility_fails_at_forward :
    (STL.init badHP (fun _ _ => 0) (fun _ _ => 0) (fun _ _ => 0)
        (fun _ _ => 0)).attention.split_size = 31 ∧
    ¬ stackable (torchSplitSizes 31 250) ∧
    STL.forwardShape badHP [2, 128] = none := ⟨rfl, by decide, by decide⟩

/-- C3 (code defect): whenever a lengths vector is supplied,
ReferenceEncoder.forward evaluates 2 ** len(self) (line 53) and nn.Module
defines no __len__, so every such call raises TypeError instead of
transforming each length to ceil(length / 2^K) and packing the sequence;
the intended expression is 2 ** len(self.convs). -/
theorem refenc_forward_with_lengths_always_fails (m : ReferenceEncoder)
    (ishape : List ℕ) (ls : List ℤ) :
    ReferenceEncoder.forwardShape m ishape (some ls) = none := by
  rcases ishape with _ | ⟨a, _ | ⟨b, _ | ⟨c, _ | ⟨d, rest⟩⟩⟩⟩
  · rfl
  · rfl
  · rfl
  · simp only [ReferenceEncoder.forwardShape]
    split_ifs with h
    · rcases hcv : convBnStackShape (m.convs.zip m.bns)
          [a, 1, a * b * c / (a * m.n_mel_channels), m.n_mel_channels] with _ | val
      · rfl
      · rcases val with _ | ⟨v1, _ | ⟨v2, _ | ⟨v3, _ | ⟨v4, _ | vrest⟩⟩⟩⟩ <;> rfl
    · rfl
  · rfl

/-- C4 (counterexample): the scenario encoder is constructed with
n_mel_channels=80, yet a call whose mel-channel dimension is 40 (input
shape [2, 50, 40]) is not rejected at call entry: the view-based reshape
silently reinterprets the data and the call returns a full output of shape
[2, 128]. -/
theorem refenc_no_mel_validation_counterexample :
    ReferenceEncoder.forwardShape (ReferenceEncoder.init scenarioHP)
      [2, 50, 40] none = some [2, 128] := by decide

/-- C4 (amended): ReferenceEncoder.forward performs no mel-channel
validation at call entry; the input is reshaped by
view(N, 1, -1, n_mel_channels), so a mis-shaped input whose element count
is divisible by N * n_mel_channels is silently reinterpreted and can
produce a full output, while an incompatible element count fails only with
a generic reshape error. -/
theorem refenc_mel_mismatch_view_behaviour :
    ReferenceEncoder.forwardShape (ReferenceEncoder.init scenarioHP)
      [2, 50, 40] none = some [2, 128] ∧
    ReferenceEncoder.forwardShape (ReferenceEncoder.init scenarioHP)
      [2, 50, 81] none = none := ⟨by decide, by decide⟩

/-- C6: the GRU input width is fixed at construction as the last configured
filter count times the collapsed frequency size, the latter obtained by
iterating L := (L - 3 + 2) // 2 + 1 exactly K = len(ref_enc_filters) times
from n_mel_channels; and ReferenceEncoder.forward compares the flattened
feature width against this stored value rather than recomputing it (with
the stored width tampered to 999, the same scenario input is rejected). -/
theorem refenc_gru_width_from_construction (hp : HParams) :
    (ReferenceEncoder.init hp).gru_input_size
        = (hp.ref_enc_filters.getLastD 0 : ℤ) *
          ((fun L : ℤ => (L - 3 + 2 * 1).fdiv 2 + 1)^[hp.ref_enc_filters.length]
            (hp.n_mel_channels : ℤ)) ∧
    ReferenceEncoder.forwardShape (ReferenceEncoder.init scenarioHP)
      [2, 50, 80] none = some [2, 128] ∧
    ReferenceEncoder.forwardShape
      { ReferenceEncoder.init scenarioHP with gru_input_size := 999 }
      [2, 50, 80] none = none := by
  refine ⟨?_, by decide, by decide⟩
  show (hp.ref_enc_filters.getLastD 0 : ℤ) *
      calculate_channels (hp.n_mel_channels : ℤ) 3 2 1 hp.ref_enc_filters.length = _
  rw [calculate_channels_eq_iterate]

/-- C9: a forward pass leaves every learned parameter unchanged: the state
component returned by GST.forwardStateful equals the input state, and in
particular the token bank and the query/key/value projection weights are
untouched. -/
theorem gst_forward_preserves_parameters {N : ℕ} (g : GSTModel)
    (inputs : Fin N → ℕ → ℕ → ℝ) (input_lengths : Option (Fin N → ℤ)) :
    (GST.forwardStateful g inputs input_lengths).1 = g ∧
    (GST.forwardStateful g inputs input_lengths).1.stl.embed = g.stl.embed ∧
    (GST.forwardStateful g inputs input_lengths).1.stl.attention.W_query
      = g.stl.attention.W_query ∧
    (GST.forwardStateful g inputs input_lengths).1.stl.attention.W_key
      = g.stl.attention.W_key ∧
    (GST.forwardStateful g inputs input_lengths).1.stl.attention.W_value
      = g.stl.attention.W_value :=
  ⟨rfl, rfl, rfl, rfl, rfl⟩

/-- C5: in MultiHeadAttention.forward, for the attention constructed by
STL (key_dim = token_embedding_size // num_heads, the pre-projection key
dimension): for every head, the scaled scores are the per-head query-key
dot products over the contiguous per-head slices divided by
sqrt(key_dim); softmax is applied over the key-position axis T_k; and the
per-head output is the softmax-weighted sum of the per-head values. -/
theorem mha_perhead_scores_softmax_values (hp : HParams)
    (e Wq Wk Wv : ℕ → ℕ → ℝ) {ι : Type*} (Tk : ℕ)
    (query key : ι → ℕ → ℕ → ℝ) :
    (STL.init hp e Wq Wk Wv).attention.key_dim
        = hp.token_embedding_size / hp.num_heads ∧
    (∀ (h : ℕ) (n : ι) (i j : ℕ),
      (STL.init hp e Wq Wk Wv).attention.scaledScores query key h n i j
        = (∑ d ∈ Finset.range (hp.token_embedding_size / hp.num_heads),
            (STL.init hp e Wq Wk Wv).attention.querys query n i
                (h * (hp.token_embedding_size / hp.num_heads) + d) *
              (STL.init hp e Wq Wk Wv).attention.keys key n j
                (h * (hp.token_embedding_size / hp.num_heads) + d))
          / Real.sqrt ((hp.token_embedding_size / hp.num_heads : ℕ) : ℝ)) ∧
    (∀ (h : ℕ) (n : ι) (i j : ℕ),
      (STL.init hp e Wq Wk Wv).attention.softScores Tk query key h n i j
        = Real.exp
            ((STL.init hp e Wq Wk Wv).attention.scaledScores query key h n i j)
          / ∑ j2 ∈ Finset.range Tk,
              Real.exp
                ((STL.init hp e Wq Wk Wv).attention.scaledScores query key h n i j2)) ∧
    (∀ (h : ℕ) (n : ι) (i c : ℕ),
      (STL.init hp e Wq Wk Wv).attention.headOut Tk query key h n i c
        = ∑ j ∈ Finset.range Tk,
            (STL.init hp e Wq Wk Wv).attention.softScores Tk query key h n i j *
              (STL.init hp e Wq Wk Wv).attention.values key n j
                (h * (hp.token_embedding_size / hp.num_heads) + c)) :=
  ⟨rfl, fun _ _ _ _ => rfl, fun _ _ _ _ => rfl, fun _ _ _ _ => rfl⟩

/-- C7: MultiHeadAttention.forward splits the projected num_units features
into num_heads contiguous chunks and concatenates the per-head outputs
back in head order: for every head h and offset j inside the chunk, output
feature h * split_size + j equals head h's attention result at offset j;
and when num_heads divides num_units the output shape is
[N, T_q, num_units]. -/
theorem mha_head_concat_order (m : MultiHeadAttention) {ι : Type*} (Tk : ℕ)
    (query key : ι → ℕ → ℕ → ℝ) (hdvd : m.num_heads ∣ m.num_units)
    (hpos : 1 ≤ m.split_size) :
    (∀ h j, h < m.num_heads → j < m.split_size → ∀ (n : ι) (i : ℕ),
      m.forwardVal Tk query key n i (h * m.split_size + j)
        = m.headOut Tk query key h n i j) ∧
    (∀ n tq, MultiHeadAttention.forwardShape m.query_dim m.key_dim
        m.num_units m.num_heads [n, tq, m.query_dim] [n, Tk, m.key_dim]
      = some [n, tq, m.num_units]) := by
  constructor
  · intro h j _hh hj n i
    have hcomm : h * m.split_size + j = j + m.split_size * h := by ring
    have hdiv : (h * m.split_size + j) / m.split_size = h := by
      rw [hcomm, Nat.add_mul_div_left _ _ (by omega : 0 < m.split_size),
        Nat.div_eq_of_lt hj, Nat.zero_add]
    have hmod : (h * m.split_size + j) % m.split_size = j := by
      rw [hcomm, Nat.add_mul_mod_self_left]
      exact Nat.mod_eq_of_lt hj
    show m.headOut Tk query key ((h * m.split_size + j) / m.split_size) n i
        ((h * m.split_size + j) % m.split_size) = _
    rw [hdiv, hmod]
  · intro n tq
    exact mha_forwardShape_divisible m.query_dim m.key_dim m.num_units
      m.num_heads n tq Tk hdvd hpos

/-- Witness for C7 at the scenario attention (query_dim 128, key_dim 32,
num_units 256, num_heads 8, zero weights), batch type ℕ, T_k = 10,
head 7, offset 31. -/
theorem mha_head_concat_order_witness :
    ((MultiHeadAttention.init 128 32 256 8 (fun _ _ => 0) (fun _ _ => 0)
        (fun _ _ => 0)).num_heads ∣
      (MultiHeadAttention.init 128 32 256 8 (fun _ _ => 0) (fun _ _ => 0)
        (fun _ _ => 0)).num_units) ∧
    1 ≤ (MultiHeadAttention.init 128 32 256 8 (fun _ _ => 0) (fun _ _ => 0)
        (fun _ _ => 0)).split_size ∧
    ((∀ h j, h < (MultiHeadAttention.init 128 32 256 8 (fun _ _ => 0)
          (fun _ _ => 0) (fun _ _ => 0)).num_heads →
        j < (MultiHeadAttention.init 128 32 256 8 (fun _ _ => 0)
          (fun _ _ => 0) (fun _ _ => 0)).split_size → ∀ (n : ℕ) (i : ℕ),
        (MultiHeadAttention.init 128 32 256 8 (fun _ _ => 0) (fun _ _ => 0)
          (fun _ _ => 0)).forwardVal 10 (fun _ _ _ => 0) (fun _ _ _ => 0) n i
            (h * (MultiHeadAttention.init 128 32 256 8 (fun _ _ => 0)
              (fun _ _ => 0) (fun _ _ => 0)).split_size + j)
          = (MultiHeadAttention.init 128 32 256 8 (fun _ _ => 0)
              (fun _ _ => 0) (fun _ _ => 0)).headOut 10 (fun _ _ _ => 0)
              (fun _ _ _ => 0) h n i j) ∧
      (∀ n tq, MultiHeadAttention.forwardShape 128 32 256 8
          [n, tq, 128] [n, 10, 32] = some [n, tq, 256])) :=
  ⟨by decide, by decide,
    @mha_head_concat_order
      (MultiHeadAttention.init 128 32 256 8 (fun _ _ => 0) (fun _ _ => 0)
        (fun _ _ => 0)) ℕ 10 (fun _ _ _ => 0) (fun _ _ _ => 0)
      (by decide) (by decide)⟩

/-- The per-channel batch mean is invariant under permuting the batch. -/
lemma bnMean_perm {N : ℕ} (σ : Equiv.Perm (Fin N)) (H W : ℕ)
    (x : Fin N → ℕ → ℕ → ℕ → ℝ) (c : ℕ) :
    bnMean H W (fun n => x (σ n)) c = bnMean H W x c := by
  unfold bnMean
  congr 1
  exact Equiv.sum_comp σ
    (fun n => ∑ h ∈ Finset.range H, ∑ w ∈ Finset.range W, x n c h w)

/-- The per-channel batch variance is invariant under permuting the batch. -/
lemma bnVar_perm {N : ℕ} (σ : Equiv.Perm (Fin N)) (H W : ℕ)
    (x : Fin N → ℕ → ℕ → ℕ → ℝ) (c : ℕ) :
    bnVar H W (fun n => x (σ n)) c = bnVar H W x c := by
  unfold bnVar
  congr 1
  rw [show (fun n => ∑ h ∈ Finset.range H, ∑ w ∈ Finset.range W,
      (x (σ n) c h w - bnMean H W (fun n2 => x (σ n2)) c) ^ 2)
    = fun n => ∑ h ∈ Finset.range H, ∑ w ∈ Finset.range W,
      (x (σ n) c h w - bnMean H W x c) ^ 2 from by
        funext n; rw [bnMean_perm σ H W x c]]
  exact Equiv.sum_comp σ
    (fun n => ∑ h ∈ Finset.range H, ∑ w ∈ Finset.range W,
      (x n c h w - bnMean H W x c) ^ 2)

/-- BatchNorm2d in training mode commutes with permuting the batch. -/
lemma batchNorm2d_perm {N : ℕ} (σ : Equiv.Perm (Fin N))
    (gamma beta : ℕ → ℝ) (eps : ℝ) (H W : ℕ) (x : Fin N → ℕ → ℕ → ℕ → ℝ) :
    batchNorm2d gamma beta eps H W (fun n => x (σ n))
      = fun n => batchNorm2d gamma beta eps H W x (σ n) := by
  funext n c h w
  unfold batchNorm2d
  rw [bnMean_perm σ H W x c, bnVar_perm σ H W x c]

/-- One conv/bn/relu stage commutes with permuting the batch. -/
lemma convBnStep_perm {N : ℕ} (σ : Equiv.Perm (Fin N)) (st : ConvStage)
    (x : Fin N → ℕ → ℕ → ℕ → ℝ) :
    convBnStep st (fun n => x (σ n)) = fun n => convBnStep st x (σ n) := by
  funext n
  exact congrArg reluVal
    (congrFun (batchNorm2d_perm σ st.gamma st.beta st.eps st.height st.width
      (fun n2 => st.conv (x n2))) n)

/-- The whole conv/bn/relu stack commutes with permuting the batch. -/
lemma convBnStackVal_perm {N : ℕ} (σ : Equiv.Perm (Fin N))
    (stages : List ConvStage) :
    ∀ x : Fin N → ℕ → ℕ → ℕ → ℝ,
      convBnStackVal stages (fun n => x (σ n))
        = fun n => convBnStackVal stages x (σ n) := by
  induction stages with
  | nil => intro x; rfl
  | cons st rest ih =>
      intro x
      show convBnStackVal rest (convBnStep st (fun n => x (σ n)))
          = fun n => convBnStackVal rest (convBnStep st x) (σ n)
      rw [convBnStep_perm σ st x]
      exact ih (convBnStep st x)

/-- ReferenceEncoder.forward commutes with permuting the batch. -/
lemma refenc_forwardVal_perm {N : ℕ} (σ : Equiv.Perm (Fin N))
    (stages : List ConvStage) (gruFn : (ℕ → ℕ → ℝ) → ℕ → ℝ)
    (melC origC Wfinal : ℕ) (inputs : Fin N → ℕ → ℕ → ℝ) :
    ReferenceEncoder.forwardVal stages gruFn melC origC Wfinal
        (fun n => inputs (σ n))
      = fun n =>
          ReferenceEncoder.forwardVal stages gruFn melC origC Wfinal inputs
            (σ n) := by
  funext n
  exact congrArg (fun z => gruFn (flattenTimeMajor Wfinal z))
    (congrFun (convBnStackVal_perm σ stages
      (fun n2 => viewAsImage origC melC (inputs n2))) n)

/-- C8: permuting the batch example order (and the lengths vector, if
supplied) permutes the GST.forward output identically.  The per-example
primitives (conv kernels, the recurrent summarizer, the attention) act
pointwise in the batch index, and the batch statistics of BatchNorm2d are
permutation invariant; when lengths are supplied both calls fail
identically (see C3). -/
theorem gst_batch_permutation_equivariant {N : ℕ} (σ : Equiv.Perm (Fin N))
    (stages : List ConvStage) (gruFn : (ℕ → ℕ → ℝ) → ℕ → ℝ)
    (melC origC Wfinal tokenNum : ℕ) (stl : STL)
    (inputs : Fin N → ℕ → ℕ → ℝ) (input_lengths : Option (Fin N → ℤ)) :
    GST.forwardVal stages gruFn melC origC Wfinal tokenNum stl
        (fun n => inputs (σ n)) (input_lengths.map (fun L n => L (σ n)))
      = (GST.forwardVal stages gruFn melC origC Wfinal tokenNum stl inputs
          input_lengths).map (fun out n => out (σ n)) := by
  cases input_lengths with
  | some L => rfl
  | none =>
      show some (STL.forwardVal stl tokenNum
          (ReferenceEncoder.forwardVal stages gruFn melC origC Wfinal
            (fun n => inputs (σ n)))) = some _
      rw [refenc_forwardVal_perm σ stages gruFn melC origC Wfinal inputs]
      rfl
